import Mathlib

/-!
Verification of the chargebacks accessor (`mollie/chargebacks.go`) of the
mollie-api-go client.

The Go source is shallowly embedded:
* JSON documents are modelled as an inductive `Json` value (the body bytes a
  transport hands back are modelled already parsed; syntactically invalid
  bodies are outside the model, type mismatches are in it).
* `encoding/json` field decoding follows the documented Go semantics that the
  claims exercise: object keys match struct fields case-insensitively, later
  duplicate keys overwrite earlier ones, `null` leaves the target untouched,
  a mismatched value for one field is recorded as an error while the
  remaining fields are still decoded ("Unmarshal ... skips that field and
  completes the unmarshaling as best it can"), and pointers are allocated
  while descending before a mismatch is discovered.
* `github.com/google/go-querystring/query.Values` together with
  `url.Values.Encode` is modelled by `queryValues` / `Values.encode`:
  `url:"name,omitempty"` string fields become `name=value` pairs for the
  non-empty fields, sorted by key and percent-encoded (`QueryEscape`).
* The collaborators `Client.NewAPIRequest` and `Client.Do` are repository
  code outside the file under study; following the spec they are modelled as
  abstract functions supplied by the host client (a `RequestBuilder` turning
  a method and URL into a request, a `Transport` returning a raw response),
  either of which may fail.
-/

/-- JSON values. Numbers are restricted to the integers, which is all the
chargeback payloads exercised here contain. -/
inductive Json where
  | null : Json
  | bool : Bool → Json
  | num : Int → Json
  | str : String → Json
  | arr : List Json → Json
  | obj : List (String × Json) → Json

/-- ASCII lower-casing, used to model Go's case-insensitive field matching. -/
def asciiLower (c : Char) : Char :=
  if 'A' ≤ c ∧ c ≤ 'Z' then Char.ofNat (c.toNat + 32) else c

/-- ASCII case-insensitive string equality (`strings.EqualFold` restricted to
the ASCII field names appearing in the structs under study). -/
def eqFold (a b : String) : Bool :=
  a.data.map asciiLower == b.data.map asciiLower

/-- Look a field name up in a decoded JSON object the way `encoding/json`
resolves keys for the structs under study: case-insensitively, with a later
occurrence of a key overwriting an earlier one. -/
def lookupField (obj : List (String × Json)) (key : String) : Option Json :=
  match obj with
  | [] => none
  | kv :: rest =>
    match lookupField rest key with
    | some v => some v
    | none => if eqFold kv.fst key then some kv.snd else none

/-- Modelled from the spec: the monetary amount type referenced by
`Chargeback` (`Amount` lives in another file of the repository). A currency
code and a decimal value string, both serialized under `omitempty` tags. -/
structure Amount where
  Currency : String := ""
  Value : String := ""
deriving DecidableEq, Repr

/-- Modelled from the spec: `time.Time` values appear in the model only
through their JSON serialization, so a timestamp is carried as its serialized
string. -/
structure GoTime where
  rfc3339 : String := ""
deriving DecidableEq, Repr

/-- Modelled from the spec: the hyperlink object type (`URL` lives in another
file of the repository); an href and a content type, both optional strings.
The Go field `Type` is spelled `Type_` because `Type` is reserved in Lean. -/
structure URL where
  Href : String := ""
  Type_ : String := ""
deriving DecidableEq, Repr

/-- Modelled from the spec: pagination links attached to a list response
(`PaginationLinks` lives in another file of the repository). -/
structure PaginationLinks where
  Self : Option URL := none
  Previous : Option URL := none
  Next : Option URL := none
  Documentation : Option URL := none
deriving DecidableEq, Repr

/-- `ChargebackLinks` describes all the possible links to be returned with a
chargeback object. -/
structure ChargebackLinks where
  Self : Option URL := none
  Payment : Option URL := none
  Settlement : Option URL := none
  Documentation : Option URL := none
deriving DecidableEq, Repr

/-- Alias for `Amount`: inside the `Chargeback` declaration the field named
`Amount` shadows the type of the same name. -/
abbrev AmountVal := Amount

/-- `Chargeback` describes a forced transaction reversal. String fields carry
`json:"...,omitempty"` tags; the pointer-valued fields are modelled as
`Option`. -/
structure Chargeback where
  Resource : String := ""
  ID : String := ""
  Amount : Option AmountVal := none
  SettlementAmount : Option AmountVal := none
  CreatedAt : Option GoTime := none
  ReversedAt : Option GoTime := none
  PaymentID : String := ""
  Links : ChargebackLinks := {}
deriving DecidableEq, Repr

/-- The anonymous `Embedded` struct inside `ChargebackList`: a single
`Chargebacks []Chargeback` field with no json tag, so its serialized name is
the Go field name `Chargebacks` (matched case-insensitively on decode). -/
structure ChargebackListEmbedded where
  Chargebacks : List Chargeback := []
deriving DecidableEq, Repr

/-- `ChargebackList` describes how a list of chargebacks is retrieved. -/
structure ChargebackList where
  Count : Int := 0
  Embedded : ChargebackListEmbedded := {}
  Links : PaginationLinks := {}
deriving DecidableEq, Repr

/-- `ChargebackOptions` describes the chargeback endpoint's valid query
string parameters (`url:"include,omitempty"`, `url:"embed,omitempty"`). -/
structure ChargebackOptions where
  Include : String := ""
  Embed : String := ""
deriving DecidableEq, Repr

/-- `ListChargebackOptions` describes the list-chargebacks endpoint's valid
query string parameters. -/
structure ListChargebackOptions where
  Include : String := ""
  Embed : String := ""
  ProfileID : String := ""
deriving DecidableEq, Repr

/-- One reflected struct field as seen by `go-querystring`: its `url:` tag
name, its current value and whether the tag carries `omitempty`. -/
structure URLField where
  name : String
  value : String
  omitempty : Bool
deriving DecidableEq, Repr

/-- The reflected field list of `ChargebackOptions`, in declaration order. -/
def ChargebackOptions.urlFields (o : ChargebackOptions) : List URLField :=
  [⟨"include", o.Include, true⟩, ⟨"embed", o.Embed, true⟩]

/-- The reflected field list of `ListChargebackOptions`, in declaration
order. -/
def ListChargebackOptions.urlFields (o : ListChargebackOptions) : List URLField :=
  [⟨"include", o.Include, true⟩, ⟨"embed", o.Embed, true⟩, ⟨"profileId", o.ProfileID, true⟩]

/-- `url.Values`, restricted to single-valued keys as produced here. -/
abbrev Values := List (String × String)

/-- Model of `query.Values`: every field whose tag has `omitempty` is dropped
when its value is empty, the rest map to `(tagName, value)` pairs.  For
structs made of plain tagged string fields the encoder cannot fail, so the
error component — which the accessor discards anyway — is always `none`. -/
def queryValues (fs : List URLField) : Values × Option String :=
  (fs.filterMap fun f => if f.omitempty && f.value == "" then none else some (f.name, f.value), none)

/-- Uppercase hexadecimal digit, as `net/url` prints escapes. -/
def hexDigit (n : Nat) : Char :=
  if n < 10 then Char.ofNat (48 + n) else Char.ofNat (55 + n)

/-- Which bytes `url.QueryEscape` leaves unescaped: ASCII alphanumerics and
`-` `_` `.` `~`. -/
def unescapedByte (n : Nat) : Bool :=
  (65 ≤ n && n ≤ 90) || (97 ≤ n && n ≤ 122) || (48 ≤ n && n ≤ 57) ||
    n == 45 || n == 95 || n == 46 || n == 126

/-- The UTF-8 bytes of one code point, as numbers. -/
def utf8Bytes (c : Char) : List Nat :=
  let n := c.toNat
  if n < 128 then [n]
  else if n < 2048 then [192 + n / 64, 128 + n % 64]
  else if n < 65536 then [224 + n / 4096, 128 + (n / 64) % 64, 128 + n % 64]
  else [240 + n / 262144, 128 + (n / 4096) % 64, 128 + (n / 64) % 64, 128 + n % 64]

/-- `url.QueryEscape`: per UTF-8 byte, space becomes `+`, unreserved bytes
pass through, everything else becomes `%XX`. -/
def queryEscape (s : String) : String :=
  String.join <| (s.data.map utf8Bytes).flatten.map fun n =>
    if n == 32 then "+"
    else if unescapedByte n then String.mk [Char.ofNat n]
    else String.mk ['%', hexDigit (n / 16), hexDigit (n % 16)]

/-- Lexicographic byte-order comparison of strings (how Go compares the keys
`url.Values.Encode` sorts; on these ASCII keys code-point order and byte
order agree). -/
def charListLe : List Char → List Char → Bool
  | [], _ => true
  | _ :: _, [] => false
  | a :: as, b :: bs =>
    if a.toNat < b.toNat then true
    else if b.toNat < a.toNat then false
    else charListLe as bs

/-- Insert one pair into a key-sorted list of pairs. -/
def insertByKey (p : String × String) : Values → Values
  | [] => [p]
  | q :: rest => if charListLe p.fst.data q.fst.data then p :: q :: rest else q :: insertByKey p rest

/-- Sort pairs by key, as `url.Values.Encode` iterates keys in sorted
order. -/
def sortByKey (vs : Values) : Values :=
  vs.foldr insertByKey []

/-- `url.Values.Encode`: keys in sorted order, `escapedKey=escapedValue`
joined with `&`. -/
def Values.encode (vs : Values) : String :=
  String.intercalate "&" ((sortByKey vs).map fun kv => queryEscape kv.fst ++ "=" ++ queryEscape kv.snd)

/-! ## Decoding (`encoding/json` semantics for the structs under study)

Each helper's error component is the first `UnmarshalTypeError`-style
message the decoder records for the fields it handles; decoding continues
past an error and fills the remaining fields. -/

/-- Decode a JSON value into a string-typed struct field: absent and `null`
leave the zero value, a string is stored, anything else is a type error. -/
def unmarshalStringField (obj : List (String × Json)) (key : String) : String × Option String :=
  match lookupField obj key with
  | none => ("", none)
  | some .null => ("", none)
  | some (.str s) => (s, none)
  | some _ => ("", some ("json: cannot unmarshal value into field " ++ key ++ " of type string"))

/-- Decode a JSON value into an int-typed struct field. -/
def unmarshalIntField (obj : List (String × Json)) (key : String) : Int × Option String :=
  match lookupField obj key with
  | none => (0, none)
  | some .null => (0, none)
  | some (.num n) => (n, none)
  | some _ => (0, some ("json: cannot unmarshal value into field " ++ key ++ " of type int"))

/-- Decode the body of an `Amount` object. -/
def unmarshalAmountObj (fs : List (String × Json)) : Amount × Option String :=
  let c := unmarshalStringField fs "currency"
  let v := unmarshalStringField fs "value"
  (⟨c.fst, v.fst⟩, c.snd <|> v.snd)

/-- Decode a `*Amount` struct field: absent and `null` leave `nil`; any other
value first allocates the pointer, so a mismatched value leaves an allocated
zero `Amount` next to the recorded error. -/
def unmarshalAmountPtr (obj : List (String × Json)) (key : String) : Option Amount × Option String :=
  match lookupField obj key with
  | none => (none, none)
  | some .null => (none, none)
  | some (.obj fs) => let r := unmarshalAmountObj fs; (some r.fst, r.snd)
  | some _ => (some {}, some ("json: cannot unmarshal value into field " ++ key ++ " of type Amount"))

/-- Decode a `*time.Time` struct field; the timestamp is carried as its
serialized string. -/
def unmarshalTimePtr (obj : List (String × Json)) (key : String) : Option GoTime × Option String :=
  match lookupField obj key with
  | none => (none, none)
  | some .null => (none, none)
  | some (.str s) => (some ⟨s⟩, none)
  | some _ => (some ⟨""⟩, some ("json: cannot unmarshal value into field " ++ key ++ " of type Time"))

/-- Decode the body of a `URL` object. -/
def unmarshalURLObj (fs : List (String × Json)) : URL × Option String :=
  let h := unmarshalStringField fs "href"
  let t := unmarshalStringField fs "type"
  (⟨h.fst, t.fst⟩, h.snd <|> t.snd)

/-- Decode a `*URL` struct field. -/
def unmarshalURLPtr (obj : List (String × Json)) (key : String) : Option URL × Option String :=
  match lookupField obj key with
  | none => (none, none)
  | some .null => (none, none)
  | some (.obj fs) => let r := unmarshalURLObj fs; (some r.fst, r.snd)
  | some _ => (some {}, some ("json: cannot unmarshal value into field " ++ key ++ " of type URL"))

/-- Decode the body of a `ChargebackLinks` object. -/
def unmarshalChargebackLinksObj (fs : List (String × Json)) : ChargebackLinks × Option String :=
  let s := unmarshalURLPtr fs "self"
  let p := unmarshalURLPtr fs "payment"
  let st := unmarshalURLPtr fs "settlement"
  let d := unmarshalURLPtr fs "documentation"
  (⟨s.fst, p.fst, st.fst, d.fst⟩, s.snd <|> p.snd <|> st.snd <|> d.snd)

/-- Decode the struct-valued `_links` field of a `Chargeback`. -/
def unmarshalChargebackLinksField (obj : List (String × Json)) : ChargebackLinks × Option String :=
  match lookupField obj "_links" with
  | none => ({}, none)
  | some .null => ({}, none)
  | some (.obj fs) => unmarshalChargebackLinksObj fs
  | some _ => ({}, some "json: cannot unmarshal value into field _links of type ChargebackLinks")

/-- Decode the body of a `Chargeback` object, field by field in declaration
order; the error is the first one recorded. -/
def unmarshalChargebackObj (fs : List (String × Json)) : Chargeback × Option String :=
  let re := unmarshalStringField fs "resource"
  let id := unmarshalStringField fs "id"
  let am := unmarshalAmountPtr fs "amount"
  let sa := unmarshalAmountPtr fs "settlementAmount"
  let ca := unmarshalTimePtr fs "createdAt"
  let ra := unmarshalTimePtr fs "reversedAt"
  let pi := unmarshalStringField fs "paymentId"
  let li := unmarshalChargebackLinksField fs
  (⟨re.fst, id.fst, am.fst, sa.fst, ca.fst, ra.fst, pi.fst, li.fst⟩,
    re.snd <|> id.snd <|> am.snd <|> sa.snd <|> ca.snd <|> ra.snd <|> pi.snd <|> li.snd)

/-- `json.Unmarshal` into a `Chargeback` value: `null` is a no-op, an object
is decoded field-wise, anything else is a type error against the zero
value. -/
def unmarshalChargeback (j : Json) : Chargeback × Option String :=
  match j with
  | .null => ({}, none)
  | .obj fs => unmarshalChargebackObj fs
  | _ => ({}, some "json: cannot unmarshal value into type Chargeback")

/-- Decode a `[]Chargeback` slice value: every element is decoded, the first
recorded error is kept while the remaining elements are still decoded. -/
def unmarshalChargebackArray (obj : List (String × Json)) (key : String) :
    List Chargeback × Option String :=
  match lookupField obj key with
  | none => ([], none)
  | some .null => ([], none)
  | some (.arr js) =>
    let rs := js.map unmarshalChargeback
    (rs.map Prod.fst, rs.foldl (fun a r => a <|> r.snd) none)
  | some _ => ([], some ("json: cannot unmarshal value into field " ++ key ++ " of type []Chargeback"))

/-- Decode the anonymous `_embedded` struct of a `ChargebackList`; its single
slice field has no json tag, so its key is the Go field name `Chargebacks`,
matched case-insensitively. -/
def unmarshalEmbeddedField (obj : List (String × Json)) : ChargebackListEmbedded × Option String :=
  match lookupField obj "_embedded" with
  | none => ({}, none)
  | some .null => ({}, none)
  | some (.obj fs) => let r := unmarshalChargebackArray fs "Chargebacks"; (⟨r.fst⟩, r.snd)
  | some _ => ({}, some "json: cannot unmarshal value into field _embedded")

/-- Decode the body of a `PaginationLinks` object. -/
def unmarshalPaginationLinksObj (fs : List (String × Json)) : PaginationLinks × Option String :=
  let s := unmarshalURLPtr fs "self"
  let p := unmarshalURLPtr fs "previous"
  let n := unmarshalURLPtr fs "next"
  let d := unmarshalURLPtr fs "documentation"
  (⟨s.fst, p.fst, n.fst, d.fst⟩, s.snd <|> p.snd <|> n.snd <|> d.snd)

/-- Decode the struct-valued `_links` field of a `ChargebackList`. -/
def unmarshalPaginationLinksField (obj : List (String × Json)) : PaginationLinks × Option String :=
  match lookupField obj "_links" with
  | none => ({}, none)
  | some .null => ({}, none)
  | some (.obj fs) => unmarshalPaginationLinksObj fs
  | some _ => ({}, some "json: cannot unmarshal value into field _links of type PaginationLinks")

/-- Decode the body of a `ChargebackList` object. -/
def unmarshalChargebackListObj (fs : List (String × Json)) : ChargebackList × Option String :=
  let c := unmarshalIntField fs "count"
  let e := unmarshalEmbeddedField fs
  let l := unmarshalPaginationLinksField fs
  (⟨c.fst, e.fst, l.fst⟩, c.snd <|> e.snd <|> l.snd)

/-- `json.Unmarshal` into a `*ChargebackList` (the address of the service's
nil pointer): `null` leaves the pointer nil with no error; an object
allocates and decodes; any other value still allocates the pointer while
descending before the mismatch is recorded, so the error comes with an
allocated zero list. -/
def unmarshalChargebackListPtr (j : Json) : Option ChargebackList × Option String :=
  match j with
  | .null => (none, none)
  | .obj fs => let r := unmarshalChargebackListObj fs; (some r.fst, r.snd)
  | _ => (some {}, some "json: cannot unmarshal value into type ChargebackList")

/-! ## The accessor pipeline -/

/-- The error type carried through the pipeline: collaborator failures are
opaque values from the builder or the transport, decode failures wrap the
decoder's message. -/
inductive Err where
  | request : String → Err
  | transport : String → Err
  | decode : String → Err
deriving DecidableEq, Repr

/-- Modelled from the spec: a transport-ready request object produced by the
RequestBuilder (the concrete `http.Request` lives outside this file). -/
structure APIRequest where
  method : String
  url : String
deriving DecidableEq, Repr

/-- Modelled from the spec: a transport response; `content` is the raw body,
carried here already parsed as a JSON value. -/
structure APIResponse where
  content : Json

/-- Modelled from the spec: the host client's two collaborators. The
RequestBuilder `NewAPIRequest` turns a method and relative URL into a request
and may fail; the Transport `Do` executes a request and may fail. The
context argument and nil body of the Go calls are elided. -/
structure Client where
  NewAPIRequest : String → String → Except Err APIRequest
  Do : APIRequest → Except Err APIResponse

/-- `ChargebacksService` operates over chargeback resources on behalf of the
host client. -/
structure ChargebacksService where
  client : Client

/-- The URL string `Get` builds: the interpolated path, and — only when
options are supplied — `?` followed by the encoded query values (the error
result of `query.Values` is discarded, mirroring `v, _ := query.Values`). -/
def getRequestURL (paymentID chargebackID : String) (options : Option ChargebackOptions) : String :=
  let u := "v2/payments/" ++ paymentID ++ "/chargebacks/" ++ chargebackID
  match options with
  | none => u
  | some o => u ++ "?" ++ Values.encode (queryValues o.urlFields).fst

/-- The URL string `List` builds. -/
def listRequestURL (options : Option ListChargebackOptions) : String :=
  let u := "v2/chargebacks"
  match options with
  | none => u
  | some o => u ++ "?" ++ Values.encode (queryValues o.urlFields).fst

/-- The URL string `ListForPayment` builds. -/
def listForPaymentRequestURL (paymentID : String) (options : Option ListChargebackOptions) : String :=
  let u := "v2/payments/" ++ paymentID ++ "/chargebacks"
  match options with
  | none => u
  | some o => u ++ "?" ++ Values.encode (queryValues o.urlFields).fst

/-- `Get` retrieves a single chargeback by its ID. The named return value
`p` starts as the zero `Chargeback` and is returned together with the error
at every early return. -/
def ChargebacksService.Get (cs : ChargebacksService) (paymentID chargebackID : String)
    (options : Option ChargebackOptions) : Chargeback × Option Err :=
  let u := getRequestURL paymentID chargebackID options
  match cs.client.NewAPIRequest "GET" u with
  | .error e => ({}, some e)
  | .ok req =>
    match cs.client.Do req with
    | .error e => ({}, some e)
    | .ok res =>
      match unmarshalChargeback res.content with
      | (p, some de) => (p, some (.decode de))
      | (p, none) => (p, none)

/-- `list` encapsulates the shared list-methods logic: one read request
against the given URI, decoded as a `*ChargebackList`. -/
def ChargebacksService.list (cs : ChargebacksService) (uri : String) :
    Option ChargebackList × Option Err :=
  match cs.client.NewAPIRequest "GET" uri with
  | .error e => (none, some e)
  | .ok req =>
    match cs.client.Do req with
    | .error e => (none, some e)
    | .ok res =>
      match unmarshalChargebackListPtr res.content with
      | (cl, some de) => (cl, some (.decode de))
      | (cl, none) => (cl, none)

/-- `List` retrieves the chargebacks of the account. -/
def ChargebacksService.List (cs : ChargebacksService)
    (options : Option ListChargebackOptions) : Option ChargebackList × Option Err :=
  cs.list (listRequestURL options)

/-- `ListForPayment` retrieves the chargebacks of a single payment. -/
def ChargebacksService.ListForPayment (cs : ChargebacksService) (paymentID : String)
    (options : Option ListChargebackOptions) : Option ChargebackList × Option Err :=
  cs.list (listForPaymentRequestURL paymentID options)

/-! ## Encoding (`json.Marshal` on a `Chargeback`)

Fields are emitted in declaration order under their tag names; `omitempty`
drops empty strings and nil pointers, but the struct-valued `_links` field is
never empty in the sense of `omitempty`, so it is always emitted. -/

/-- An `omitempty` string field: dropped when empty. -/
def strField (key v : String) : List (String × Json) :=
  if v = "" then [] else [(key, Json.str v)]

/-- Serialize an `Amount`. -/
def amountObj (a : Amount) : Json :=
  Json.obj (strField "currency" a.Currency ++ strField "value" a.Value)

/-- An `omitempty` `*Amount` field: dropped when nil. -/
def amountField (key : String) (x : Option Amount) : List (String × Json) :=
  match x with
  | none => []
  | some a => [(key, amountObj a)]

/-- An `omitempty` `*time.Time` field: dropped when nil, otherwise its
serialized timestamp string. -/
def timeField (key : String) (t : Option GoTime) : List (String × Json) :=
  match t with
  | none => []
  | some t => [(key, Json.str t.rfc3339)]

/-- Serialize a `URL`. -/
def urlObj (u : URL) : Json :=
  Json.obj (strField "href" u.Href ++ strField "type" u.Type_)

/-- An `omitempty` `*URL` field: dropped when nil. -/
def urlField (key : String) (x : Option URL) : List (String × Json) :=
  match x with
  | none => []
  | some u => [(key, urlObj u)]

/-- Serialize a `ChargebackLinks` struct. -/
def chargebackLinksObj (l : ChargebackLinks) : Json :=
  Json.obj (urlField "self" l.Self ++ urlField "payment" l.Payment ++
    urlField "settlement" l.Settlement ++ urlField "documentation" l.Documentation)

/-- The field list `json.Marshal` emits for a `Chargeback`, in declaration
order; the struct-valued `_links` member is always present. -/
def Chargeback.marshalFields (c : Chargeback) : List (String × Json) :=
  strField "resource" c.Resource ++ strField "id" c.ID ++
    amountField "amount" c.Amount ++ amountField "settlementAmount" c.SettlementAmount ++
    timeField "createdAt" c.CreatedAt ++ timeField "reversedAt" c.ReversedAt ++
    strField "paymentId" c.PaymentID ++ [("_links", chargebackLinksObj c.Links)]

/-- `json.Marshal` on a `Chargeback`. -/
def Chargeback.marshalJSON (c : Chargeback) : Json :=
  Json.obj c.marshalFields

/-! ## Stub collaborators used in concrete scenarios -/

/-- A client whose builder accepts every URL and whose transport always
answers with the given body. -/
def stubService (body : Json) : ChargebacksService :=
  ⟨⟨fun m u => .ok ⟨m, u⟩, fun _ => .ok ⟨body⟩⟩⟩

/-- A client whose transport answers every request with a `null` body. -/
def okService : ChargebacksService :=
  stubService Json.null

/-- A client whose request builder rejects every input. -/
def requestErrService : ChargebacksService :=
  ⟨⟨fun _ _ => .error (.request "invalid request"), fun _ => .ok ⟨Json.null⟩⟩⟩

/-- A client whose transport fails every request. -/
def transportErrService : ChargebacksService :=
  ⟨⟨fun m u => .ok ⟨m, u⟩, fun _ => .error (.transport "non-2xx status")⟩⟩

/-- A response body whose `id` decodes but whose `amount` is a JSON boolean,
triggering an `UnmarshalTypeError` after `id` has been stored. -/
def badAmountBody : Json :=
  Json.obj [("id", Json.str "chb_1"), ("amount", Json.bool true)]

/-- The stub body of the spec's `List` scenario. -/
def listScenarioBody : Json :=
  Json.obj [("count", Json.num 1),
    ("_embedded", Json.obj [("chargebacks", Json.arr [Json.obj [("id", Json.str "chb_1")]])]),
    ("_links", Json.obj [])]

/-! ## Helper lemmas -/

theorem getRequestURL_some (paymentID chargebackID : String) (o : ChargebackOptions) :
    getRequestURL paymentID chargebackID (some o) =
      getRequestURL paymentID chargebackID none ++ "?" ++
        Values.encode (queryValues o.urlFields).fst := rfl

theorem listRequestURL_some (o : ListChargebackOptions) :
    listRequestURL (some o) =
      listRequestURL none ++ "?" ++ Values.encode (queryValues o.urlFields).fst := rfl

theorem listForPaymentRequestURL_some (paymentID : String) (o : ListChargebackOptions) :
    listForPaymentRequestURL paymentID (some o) =
      listForPaymentRequestURL paymentID none ++ "?" ++
        Values.encode (queryValues o.urlFields).fst := rfl

/-! ## Claims -/

/-- C1, counterexample: the claim says `Get` with absent options constructs
exactly `payments/{paymentID}/chargebacks/{chargebackID}`, but the code
interpolates into `v2/payments/%s/chargebacks/%s`, so the constructed string
differs at a concrete input. -/
theorem get_path_not_unprefixed :
    getRequestURL "tr_7UhSN1zuXS" "chb_n9z0tp" none ≠
      "payments/tr_7UhSN1zuXS/chargebacks/chb_n9z0tp" := by decide

/-- C1 (amended): with absent options `Get` constructs exactly
`v2/payments/{paymentID}/chargebacks/{chargebackID}`, appending no query
string; the constructed URL contains no `?` whenever the identifiers
themselves contain none. -/
theorem get_nil_options_exact_path (paymentID chargebackID : String)
    (hp : '?' ∉ paymentID.data) (hc : '?' ∉ chargebackID.data) :
    getRequestURL paymentID chargebackID none =
      "v2/payments/" ++ paymentID ++ "/chargebacks/" ++ chargebackID ∧
    '?' ∉ (getRequestURL paymentID chargebackID none).data := by
  refine ⟨rfl, ?_⟩
  have h0 : getRequestURL paymentID chargebackID none =
      "v2/payments/" ++ paymentID ++ "/chargebacks/" ++ chargebackID := rfl
  rw [h0]
  intro h
  simp only [String.data_append, List.mem_append] at h
  rcases h with ((h | h) | h) | h
  · exact absurd h (by decide)
  · exact hp h
  · exact absurd h (by decide)
  · exact hc h

/-- C1, witness for the amended theorem at concrete identifiers. -/
theorem get_nil_options_exact_path_witness :
    getRequestURL "tr_7UhSN1zuXS" "chb_n9z0tp" none =
      "v2/payments/" ++ "tr_7UhSN1zuXS" ++ "/chargebacks/" ++ "chb_n9z0tp" ∧
    '?' ∉ (getRequestURL "tr_7UhSN1zuXS" "chb_n9z0tp" none).data :=
  get_nil_options_exact_path "tr_7UhSN1zuXS" "chb_n9z0tp" (by decide) (by decide)

/-- C3: a supplied options value whose fields are all empty still appends
`?` followed by the empty query string, in all three public operations. -/
theorem empty_options_append_bare_question_mark
    (paymentID chargebackID : String) (o : ChargebackOptions) (lo : ListChargebackOptions)
    (h1 : o.Include = "") (h2 : o.Embed = "")
    (h3 : lo.Include = "") (h4 : lo.Embed = "") (h5 : lo.ProfileID = "") :
    getRequestURL paymentID chargebackID (some o) =
      getRequestURL paymentID chargebackID none ++ "?" ∧
    listRequestURL (some lo) = listRequestURL none ++ "?" ∧
    listForPaymentRequestURL paymentID (some lo) =
      listForPaymentRequestURL paymentID none ++ "?" := by
  obtain ⟨i, e⟩ := o
  obtain ⟨li, le, lp⟩ := lo
  simp only at h1 h2 h3 h4 h5
  subst h1 h2 h3 h4 h5
  have henc : Values.encode (queryValues (ChargebackOptions.urlFields ⟨"", ""⟩)).fst = "" := rfl
  have henc2 : Values.encode (queryValues (ListChargebackOptions.urlFields ⟨"", "", ""⟩)).fst = "" := rfl
  refine ⟨?_, ?_, ?_⟩
  · rw [getRequestURL_some, henc, String.append_empty]
  · rw [listRequestURL_some, henc2, String.append_empty]
  · rw [listForPaymentRequestURL_some, henc2, String.append_empty]

/-- C3, witness at concrete identifiers and the all-empty options values. -/
theorem empty_options_append_bare_question_mark_witness :
    getRequestURL "tr_7UhSN1zuXS" "chb_n9z0tp" (some {}) =
      getRequestURL "tr_7UhSN1zuXS" "chb_n9z0tp" none ++ "?" ∧
    listRequestURL (some {}) = listRequestURL none ++ "?" ∧
    listForPaymentRequestURL "tr_7UhSN1zuXS" (some {}) =
      listForPaymentRequestURL "tr_7UhSN1zuXS" none ++ "?" :=
  empty_options_append_bare_question_mark "tr_7UhSN1zuXS" "chb_n9z0tp" {} {} rfl rfl rfl rfl rfl

/-- C8: identifiers are interpolated into the path with no validation at this
layer — empty identifiers produce `v2/payments//chargebacks/` — and against
collaborators that accept every request, `Get` and `ListForPayment` return no
error whatever the identifiers are. -/
theorem ids_interpolated_without_validation (paymentID chargebackID : String) :
    getRequestURL paymentID chargebackID none =
      "v2/payments/" ++ paymentID ++ "/chargebacks/" ++ chargebackID ∧
    listForPaymentRequestURL paymentID none = "v2/payments/" ++ paymentID ++ "/chargebacks" ∧
    getRequestURL "" "" none = "v2/payments//chargebacks/" ∧
    (okService.Get paymentID chargebackID none).snd = none ∧
    (okService.ListForPayment paymentID none).snd = none := by
  refine ⟨rfl, rfl, by decide, rfl, rfl⟩

/-- C4: the produced query values are exactly the non-empty option fields
under their declared parameter names, with no extras; the three operations
append exactly the sorted-and-escaped encoding of those values. -/
theorem query_string_exactly_nonempty_fields (o : ListChargebackOptions) (co : ChargebackOptions) :
    (∀ kv : String × String, kv ∈ (queryValues o.urlFields).fst ↔
      (kv = ("include", o.Include) ∧ o.Include ≠ "") ∨
      (kv = ("embed", o.Embed) ∧ o.Embed ≠ "") ∨
      (kv = ("profileId", o.ProfileID) ∧ o.ProfileID ≠ "")) ∧
    (∀ kv : String × String, kv ∈ (queryValues co.urlFields).fst ↔
      (kv = ("include", co.Include) ∧ co.Include ≠ "") ∨
      (kv = ("embed", co.Embed) ∧ co.Embed ≠ "")) ∧
    (∀ paymentID chargebackID, getRequestURL paymentID chargebackID (some co) =
      getRequestURL paymentID chargebackID none ++ "?" ++
        Values.encode (queryValues co.urlFields).fst) ∧
    (listRequestURL (some o) =
      listRequestURL none ++ "?" ++ Values.encode (queryValues o.urlFields).fst) ∧
    (∀ paymentID, listForPaymentRequestURL paymentID (some o) =
      listForPaymentRequestURL paymentID none ++ "?" ++
        Values.encode (queryValues o.urlFields).fst) := by
  refine ⟨?_, ?_, fun _ _ => rfl, rfl, fun _ => rfl⟩
  · intro kv
    by_cases hi : o.Include = "" <;> by_cases he : o.Embed = "" <;>
      by_cases hp : o.ProfileID = "" <;>
      simp [queryValues, ListChargebackOptions.urlFields, hi, he, hp]
  · intro kv
    by_cases hi : co.Include = "" <;> by_cases he : co.Embed = "" <;>
      simp [queryValues, ChargebackOptions.urlFields, hi, he]

/-- C9: the query-string encoder's error result is discarded. For these
string-field option structs the encoder reports no error at all, and every
error any of the three operations returns originates in the request builder,
the transport, or the body decoder — never in query-string construction. -/
theorem query_encoder_error_discarded (cs : ChargebacksService)
    (paymentID chargebackID uri : String) (o : Option ChargebackOptions)
    (co : ChargebackOptions) (lo : ListChargebackOptions) :
    (queryValues co.urlFields).snd = none ∧
    (queryValues lo.urlFields).snd = none ∧
    ((cs.Get paymentID chargebackID o).snd = none ∨
     (∃ e, cs.client.NewAPIRequest "GET" (getRequestURL paymentID chargebackID o) = .error e ∧
       (cs.Get paymentID chargebackID o).snd = some e) ∨
     (∃ req e, cs.client.NewAPIRequest "GET" (getRequestURL paymentID chargebackID o) = .ok req ∧
       cs.client.Do req = .error e ∧ (cs.Get paymentID chargebackID o).snd = some e) ∨
     (∃ req res de, cs.client.NewAPIRequest "GET" (getRequestURL paymentID chargebackID o) = .ok req ∧
       cs.client.Do req = .ok res ∧ (unmarshalChargeback res.content).snd = some de ∧
       (cs.Get paymentID chargebackID o).snd = some (Err.decode de))) ∧
    ((cs.list uri).snd = none ∨
     (∃ e, cs.client.NewAPIRequest "GET" uri = .error e ∧ (cs.list uri).snd = some e) ∨
     (∃ req e, cs.client.NewAPIRequest "GET" uri = .ok req ∧ cs.client.Do req = .error e ∧
       (cs.list uri).snd = some e) ∨
     (∃ req res de, cs.client.NewAPIRequest "GET" uri = .ok req ∧ cs.client.Do req = .ok res ∧
       (unmarshalChargebackListPtr res.content).snd = some de ∧
       (cs.list uri).snd = some (Err.decode de))) ∧
    (∀ lo', cs.List lo' = cs.list (listRequestURL lo')) ∧
    (∀ pid lo', cs.ListForPayment pid lo' = cs.list (listForPaymentRequestURL pid lo')) := by
  refine ⟨rfl, rfl, ?_, ?_, fun _ => rfl, fun _ _ => rfl⟩
  · rcases hreq : cs.client.NewAPIRequest "GET" (getRequestURL paymentID chargebackID o) with e | req
    · refine Or.inr (Or.inl ⟨e, rfl, ?_⟩)
      simp [ChargebacksService.Get, hreq]
    · rcases hdo : cs.client.Do req with e | res
      · refine Or.inr (Or.inr (Or.inl ⟨req, e, rfl, hdo, ?_⟩))
        simp [ChargebacksService.Get, hreq, hdo]
      · rcases hun : unmarshalChargeback res.content with ⟨p, de⟩
        rcases de with _ | de
        · refine Or.inl ?_
          simp [ChargebacksService.Get, hreq, hdo, hun]
        · refine Or.inr (Or.inr (Or.inr ⟨req, res, de, rfl, hdo, by rw [hun], ?_⟩))
          simp [ChargebacksService.Get, hreq, hdo, hun]
  · rcases hreq : cs.client.NewAPIRequest "GET" uri with e | req
    · refine Or.inr (Or.inl ⟨e, rfl, ?_⟩)
      simp [ChargebacksService.list, hreq]
    · rcases hdo : cs.client.Do req with e | res
      · refine Or.inr (Or.inr (Or.inl ⟨req, e, rfl, hdo, ?_⟩))
        simp [ChargebacksService.list, hreq, hdo]
      · rcases hun : unmarshalChargebackListPtr res.content with ⟨cl, de⟩
        rcases de with _ | de
        · refine Or.inl ?_
          simp [ChargebacksService.list, hreq, hdo, hun]
        · refine Or.inr (Or.inr (Or.inr ⟨req, res, de, rfl, hdo, by rw [hun], ?_⟩))
          simp [ChargebacksService.list, hreq, hdo, hun]

/-- C2, counterexample: when the transport hands `Get` the body
`{"id":"chb_1","amount":true}`, decoding records a type error for `amount`
but has already stored `id`, and `Get` returns that partially populated
chargeback next to the non-nil error — not the zero value. -/
theorem decode_error_pairs_with_partial_result :
    (((stubService badAmountBody).Get "tr_7UhSN1zuXS" "chb_n9z0tp" none).snd).isSome = true ∧
    ((stubService badAmountBody).Get "tr_7UhSN1zuXS" "chb_n9z0tp" none).fst ≠ ({} : Chargeback) ∧
    ((stubService badAmountBody).Get "tr_7UhSN1zuXS" "chb_n9z0tp" none).fst.ID = "chb_1" := by
  decide

/-- C2 (amended): errors from request construction and from the transport
are returned with the zero-value result (zero `Chargeback` for `Get`, nil
list for the list operations); on a JSON decode error the operation returns
the error together with whatever the decoder populated, which can be a
partially populated value. -/
theorem zero_result_on_builder_and_transport_errors (cs : ChargebacksService)
    (paymentID chargebackID uri : String) (o : Option ChargebackOptions)
    (e : Err) (req : APIRequest) :
    (cs.client.NewAPIRequest "GET" (getRequestURL paymentID chargebackID o) = .error e →
      cs.Get paymentID chargebackID o = ({}, some e)) ∧
    (cs.client.NewAPIRequest "GET" (getRequestURL paymentID chargebackID o) = .ok req →
      cs.client.Do req = .error e → cs.Get paymentID chargebackID o = ({}, some e)) ∧
    (cs.client.NewAPIRequest "GET" uri = .error e → cs.list uri = (none, some e)) ∧
    (cs.client.NewAPIRequest "GET" uri = .ok req → cs.client.Do req = .error e →
      cs.list uri = (none, some e)) ∧
    (∀ res, cs.client.NewAPIRequest "GET" (getRequestURL paymentID chargebackID o) = .ok req →
      cs.client.Do req = .ok res →
      cs.Get paymentID chargebackID o =
        ((unmarshalChargeback res.content).fst,
          (unmarshalChargeback res.content).snd.map Err.decode)) ∧
    (∀ res, cs.client.NewAPIRequest "GET" uri = .ok req → cs.client.Do req = .ok res →
      cs.list uri =
        ((unmarshalChargebackListPtr res.content).fst,
          (unmarshalChargebackListPtr res.content).snd.map Err.decode)) := by
  refine ⟨?_, ?_, ?_, ?_, ?_, ?_⟩
  · intro h
    simp [ChargebacksService.Get, h]
  · intro h1 h2
    simp [ChargebacksService.Get, h1, h2]
  · intro h
    simp [ChargebacksService.list, h]
  · intro h1 h2
    simp [ChargebacksService.list, h1, h2]
  · intro res h1 h2
    rcases hun : unmarshalChargeback res.content with ⟨p, de⟩
    rcases de with _ | de <;> simp [ChargebacksService.Get, h1, h2, hun]
  · intro res h1 h2
    rcases hun : unmarshalChargebackListPtr res.content with ⟨cl, de⟩
    rcases de with _ | de <;> simp [ChargebacksService.list, h1, h2, hun]

/-- C2, witness: the amended theorem applied to stub collaborators that fail
at the builder, fail at the transport, and succeed with a `null` body. -/
theorem zero_result_on_builder_and_transport_errors_witness :
    requestErrService.Get "tr_7UhSN1zuXS" "chb_n9z0tp" none =
      ({}, some (.request "invalid request")) ∧
    transportErrService.Get "tr_7UhSN1zuXS" "chb_n9z0tp" none =
      ({}, some (.transport "non-2xx status")) ∧
    requestErrService.list "v2/chargebacks" = (none, some (.request "invalid request")) ∧
    transportErrService.list "v2/chargebacks" = (none, some (.transport "non-2xx status")) ∧
    okService.Get "tr_7UhSN1zuXS" "chb_n9z0tp" none = ({}, none) ∧
    okService.list "v2/chargebacks" = (none, none) :=
  ⟨(zero_result_on_builder_and_transport_errors requestErrService "tr_7UhSN1zuXS" "chb_n9z0tp"
      "v2/chargebacks" none (.request "invalid request") ⟨"GET", ""⟩).1 rfl,
   (zero_result_on_builder_and_transport_errors transportErrService "tr_7UhSN1zuXS" "chb_n9z0tp"
      "v2/chargebacks" none (.transport "non-2xx status")
      ⟨"GET", getRequestURL "tr_7UhSN1zuXS" "chb_n9z0tp" none⟩).2.1 rfl rfl,
   (zero_result_on_builder_and_transport_errors requestErrService "tr_7UhSN1zuXS" "chb_n9z0tp"
      "v2/chargebacks" none (.request "invalid request") ⟨"GET", ""⟩).2.2.1 rfl,
   (zero_result_on_builder_and_transport_errors transportErrService "tr_7UhSN1zuXS" "chb_n9z0tp"
      "v2/chargebacks" none (.transport "non-2xx status") ⟨"GET", "v2/chargebacks"⟩).2.2.2.1 rfl rfl,
   (zero_result_on_builder_and_transport_errors okService "tr_7UhSN1zuXS" "chb_n9z0tp"
      "v2/chargebacks" none (.request "unused")
      ⟨"GET", getRequestURL "tr_7UhSN1zuXS" "chb_n9z0tp" none⟩).2.2.2.2.1
      ⟨Json.null⟩ rfl rfl,
   (zero_result_on_builder_and_transport_errors okService "tr_7UhSN1zuXS" "chb_n9z0tp"
      "v2/chargebacks" none (.request "unused") ⟨"GET", "v2/chargebacks"⟩).2.2.2.2.2
      ⟨Json.null⟩ rfl rfl⟩

/-- C5: `List` and `ListForPayment` are thin callers of the shared private
`list` helper, and when their transports hand back the same raw body the two
operations return structurally identical results, errors included. -/
theorem list_variants_share_decode_path (cs1 cs2 : ChargebacksService)
    (o : Option ListChargebackOptions) (paymentID : String)
    (req1 req2 : APIRequest) (b : Json)
    (h1 : cs1.client.NewAPIRequest "GET" (listRequestURL o) = .ok req1)
    (h2 : cs1.client.Do req1 = .ok ⟨b⟩)
    (h3 : cs2.client.NewAPIRequest "GET" (listForPaymentRequestURL paymentID o) = .ok req2)
    (h4 : cs2.client.Do req2 = .ok ⟨b⟩) :
    cs1.List o = cs2.ListForPayment paymentID o ∧
    cs1.List o = cs1.list (listRequestURL o) ∧
    cs2.ListForPayment paymentID o = cs2.list (listForPaymentRequestURL paymentID o) := by
  refine ⟨?_, rfl, rfl⟩
  simp [ChargebacksService.List, ChargebacksService.ListForPayment, ChargebacksService.list,
    h1, h2, h3, h4]

/-- C5, witness: both list operations against stubs answering the same
body return the same value. -/
theorem list_variants_share_decode_path_witness :
    (stubService listScenarioBody).List none =
      (stubService listScenarioBody).ListForPayment "tr_7UhSN1zuXS" none :=
  (list_variants_share_decode_path (stubService listScenarioBody) (stubService listScenarioBody)
    none "tr_7UhSN1zuXS" ⟨"GET", listRequestURL none⟩
    ⟨"GET", listForPaymentRequestURL "tr_7UhSN1zuXS" none⟩ listScenarioBody
    rfl rfl rfl rfl).1

/-- C7: `List` with nil options against a stub returning
`{"count":1,"_embedded":{"chargebacks":[{"id":"chb_1"}]},"_links":{}}`
yields a non-nil list with count 1 and exactly one embedded chargeback whose
ID is `chb_1`, and a nil error. -/
theorem list_stub_scenario_count_one :
    (stubService listScenarioBody).List none =
      (some { Count := 1, Embedded := ⟨[{ ID := "chb_1" }]⟩, Links := {} }, none) := by
  decide

/-- C10: when the transport succeeds and the body is the JSON literal
`null`, both list operations return a nil list together with a nil error. -/
theorem null_body_returns_nil_nil (cs : ChargebacksService)
    (o : Option ListChargebackOptions) (paymentID : String) (req1 req2 : APIRequest)
    (h1 : cs.client.NewAPIRequest "GET" (listRequestURL o) = .ok req1)
    (h2 : cs.client.Do req1 = .ok ⟨Json.null⟩)
    (h3 : cs.client.NewAPIRequest "GET" (listForPaymentRequestURL paymentID o) = .ok req2)
    (h4 : cs.client.Do req2 = .ok ⟨Json.null⟩) :
    cs.List o = (none, none) ∧ cs.ListForPayment paymentID o = (none, none) := by
  constructor <;>
    simp [ChargebacksService.List, ChargebacksService.ListForPayment, ChargebacksService.list,
      h1, h2, h3, h4, unmarshalChargebackListPtr]

/-- C10, witness: the always-null stub returns `(nil, nil)` from both list
operations. -/
theorem null_body_returns_nil_nil_witness :
    okService.List none = (none, none) ∧
    okService.ListForPayment "tr_7UhSN1zuXS" none = (none, none) :=
  null_body_returns_nil_nil okService none "tr_7UhSN1zuXS" ⟨"GET", listRequestURL none⟩
    ⟨"GET", listForPaymentRequestURL "tr_7UhSN1zuXS" none⟩ rfl rfl rfl rfl

/-! ## Round-trip lemmas for the `Chargeback` JSON codec -/

theorem eqFold_self (s : String) : eqFold s s = true := by
  simp [eqFold]

theorem lookupField_append (l1 l2 : List (String × Json)) (key : String) :
    lookupField (l1 ++ l2) key =
      match lookupField l2 key with
      | some v => some v
      | none => lookupField l1 key := by
  induction l1 with
  | nil =>
    rw [List.nil_append]
    cases lookupField l2 key <;> rfl
  | cons kv t ih =>
    rw [List.cons_append]
    show (match lookupField (t ++ l2) key with
      | some v => some v
      | none => if eqFold kv.fst key then some kv.snd else none) = _
    rw [ih]
    cases lookupField l2 key <;> rfl

theorem lookupField_single (k : String) (v : Json) (key : String) :
    lookupField [(k, v)] key = if eqFold k key then some v else none := rfl

theorem lookupField_single_self (k : String) (v : Json) :
    lookupField [(k, v)] k = some v := by
  rw [lookupField_single, eqFold_self]
  rfl

theorem lookupField_single_ne (k : String) (v : Json) (key : String)
    (h : eqFold k key = false) : lookupField [(k, v)] key = none := by
  rw [lookupField_single, h]
  rfl

theorem lookupField_strField_self (k v : String) :
    lookupField (strField k v) k = if v = "" then none else some (Json.str v) := by
  unfold strField
  split
  · rfl
  · rw [lookupField_single_self]

theorem lookupField_strField_ne (k v key : String) (h : eqFold k key = false) :
    lookupField (strField k v) key = none := by
  unfold strField
  split
  · rfl
  · exact lookupField_single_ne _ _ _ h

theorem lookupField_amountField_self (k : String) (x : Option Amount) :
    lookupField (amountField k x) k = x.map amountObj := by
  cases x with
  | none => rfl
  | some a => exact lookupField_single_self k (amountObj a)

theorem lookupField_amountField_ne (k : String) (x : Option Amount) (key : String)
    (h : eqFold k key = false) : lookupField (amountField k x) key = none := by
  cases x
  · rfl
  · exact lookupField_single_ne _ _ _ h

theorem lookupField_timeField_self (k : String) (x : Option GoTime) :
    lookupField (timeField k x) k = x.map fun t => Json.str t.rfc3339 := by
  cases x with
  | none => rfl
  | some t => exact lookupField_single_self k (Json.str t.rfc3339)

theorem lookupField_timeField_ne (k : String) (x : Option GoTime) (key : String)
    (h : eqFold k key = false) : lookupField (timeField k x) key = none := by
  cases x
  · rfl
  · exact lookupField_single_ne _ _ _ h

theorem lookupField_urlField_self (k : String) (x : Option URL) :
    lookupField (urlField k x) k = x.map urlObj := by
  cases x with
  | none => rfl
  | some u => exact lookupField_single_self k (urlObj u)

theorem lookupField_urlField_ne (k : String) (x : Option URL) (key : String)
    (h : eqFold k key = false) : lookupField (urlField k x) key = none := by
  cases x
  · rfl
  · exact lookupField_single_ne _ _ _ h

theorem marshal_lookup_resource (c : Chargeback) :
    lookupField c.marshalFields "resource" =
      if c.Resource = "" then none else some (Json.str c.Resource) := by
  have h8 := lookupField_single_ne "_links" (chargebackLinksObj c.Links) "resource" (by decide)
  have h7 := lookupField_strField_ne "paymentId" c.PaymentID "resource" (by decide)
  have h6 := lookupField_timeField_ne "reversedAt" c.ReversedAt "resource" (by decide)
  have h5 := lookupField_timeField_ne "createdAt" c.CreatedAt "resource" (by decide)
  have h4 := lookupField_amountField_ne "settlementAmount" c.SettlementAmount "resource" (by decide)
  have h3 := lookupField_amountField_ne "amount" c.Amount "resource" (by decide)
  have h2 := lookupField_strField_ne "id" c.ID "resource" (by decide)
  rw [Chargeback.marshalFields,
    lookupField_append,
    h8,
    lookupField_append,
    h7,
    lookupField_append,
    h6,
    lookupField_append,
    h5,
    lookupField_append,
    h4,
    lookupField_append,
    h3,
    lookupField_append,
    h2,
    lookupField_strField_self]

theorem marshal_lookup_id (c : Chargeback) :
    lookupField c.marshalFields "id" =
      if c.ID = "" then none else some (Json.str c.ID) := by
  have h8 := lookupField_single_ne "_links" (chargebackLinksObj c.Links) "id" (by decide)
  have h7 := lookupField_strField_ne "paymentId" c.PaymentID "id" (by decide)
  have h6 := lookupField_timeField_ne "reversedAt" c.ReversedAt "id" (by decide)
  have h5 := lookupField_timeField_ne "createdAt" c.CreatedAt "id" (by decide)
  have h4 := lookupField_amountField_ne "settlementAmount" c.SettlementAmount "id" (by decide)
  have h3 := lookupField_amountField_ne "amount" c.Amount "id" (by decide)
  have h1 := lookupField_strField_ne "resource" c.Resource "id" (by decide)
  rw [Chargeback.marshalFields,
    lookupField_append,
    h8,
    lookupField_append,
    h7,
    lookupField_append,
    h6,
    lookupField_append,
    h5,
    lookupField_append,
    h4,
    lookupField_append,
    h3,
    lookupField_append,
    lookupField_strField_self,
    h1]
  by_cases h : c.ID = "" <;> simp [h]

theorem marshal_lookup_amount (c : Chargeback) :
    lookupField c.marshalFields "amount" =
      c.Amount.map amountObj := by
  have h8 := lookupField_single_ne "_links" (chargebackLinksObj c.Links) "amount" (by decide)
  have h7 := lookupField_strField_ne "paymentId" c.PaymentID "amount" (by decide)
  have h6 := lookupField_timeField_ne "reversedAt" c.ReversedAt "amount" (by decide)
  have h5 := lookupField_timeField_ne "createdAt" c.CreatedAt "amount" (by decide)
  have h4 := lookupField_amountField_ne "settlementAmount" c.SettlementAmount "amount" (by decide)
  have h2 := lookupField_strField_ne "id" c.ID "amount" (by decide)
  have h1 := lookupField_strField_ne "resource" c.Resource "amount" (by decide)
  rw [Chargeback.marshalFields,
    lookupField_append,
    h8,
    lookupField_append,
    h7,
    lookupField_append,
    h6,
    lookupField_append,
    h5,
    lookupField_append,
    h4,
    lookupField_append,
    lookupField_amountField_self,
    lookupField_append,
    h2,
    h1]
  cases c.Amount <;> rfl

theorem marshal_lookup_settlementAmount (c : Chargeback) :
    lookupField c.marshalFields "settlementAmount" =
      c.SettlementAmount.map amountObj := by
  have h8 := lookupField_single_ne "_links" (chargebackLinksObj c.Links) "settlementAmount" (by decide)
  have h7 := lookupField_strField_ne "paymentId" c.PaymentID "settlementAmount" (by decide)
  have h6 := lookupField_timeField_ne "reversedAt" c.ReversedAt "settlementAmount" (by decide)
  have h5 := lookupField_timeField_ne "createdAt" c.CreatedAt "settlementAmount" (by decide)
  have h3 := lookupField_amountField_ne "amount" c.Amount "settlementAmount" (by decide)
  have h2 := lookupField_strField_ne "id" c.ID "settlementAmount" (by decide)
  have h1 := lookupField_strField_ne "resource" c.Resource "settlementAmount" (by decide)
  rw [Chargeback.marshalFields,
    lookupField_append,
    h8,
    lookupField_append,
    h7,
    lookupField_append,
    h6,
    lookupField_append,
    h5,
    lookupField_append,
    lookupField_amountField_self,
    lookupField_append,
    h3,
    lookupField_append,
    h2,
    h1]
  cases c.SettlementAmount <;> rfl

theorem marshal_lookup_createdAt (c : Chargeback) :
    lookupField c.marshalFields "createdAt" =
      c.CreatedAt.map fun t => Json.str t.rfc3339 := by
  have h8 := lookupField_single_ne "_links" (chargebackLinksObj c.Links) "createdAt" (by decide)
  have h7 := lookupField_strField_ne "paymentId" c.PaymentID "createdAt" (by decide)
  have h6 := lookupField_timeField_ne "reversedAt" c.ReversedAt "createdAt" (by decide)
  have h4 := lookupField_amountField_ne "settlementAmount" c.SettlementAmount "createdAt" (by decide)
  have h3 := lookupField_amountField_ne "amount" c.Amount "createdAt" (by decide)
  have h2 := lookupField_strField_ne "id" c.ID "createdAt" (by decide)
  have h1 := lookupField_strField_ne "resource" c.Resource "createdAt" (by decide)
  rw [Chargeback.marshalFields,
    lookupField_append,
    h8,
    lookupField_append,
    h7,
    lookupField_append,
    h6,
    lookupField_append,
    lookupField_timeField_self,
    lookupField_append,
    h4,
    lookupField_append,
    h3,
    lookupField_append,
    h2,
    h1]
  cases c.CreatedAt <;> rfl

theorem marshal_lookup_reversedAt (c : Chargeback) :
    lookupField c.marshalFields "reversedAt" =
      c.ReversedAt.map fun t => Json.str t.rfc3339 := by
  have h8 := lookupField_single_ne "_links" (chargebackLinksObj c.Links) "reversedAt" (by decide)
  have h7 := lookupField_strField_ne "paymentId" c.PaymentID "reversedAt" (by decide)
  have h5 := lookupField_timeField_ne "createdAt" c.CreatedAt "reversedAt" (by decide)
  have h4 := lookupField_amountField_ne "settlementAmount" c.SettlementAmount "reversedAt" (by decide)
  have h3 := lookupField_amountField_ne "amount" c.Amount "reversedAt" (by decide)
  have h2 := lookupField_strField_ne "id" c.ID "reversedAt" (by decide)
  have h1 := lookupField_strField_ne "resource" c.Resource "reversedAt" (by decide)
  rw [Chargeback.marshalFields,
    lookupField_append,
    h8,
    lookupField_append,
    h7,
    lookupField_append,
    lookupField_timeField_self,
    lookupField_append,
    h5,
    lookupField_append,
    h4,
    lookupField_append,
    h3,
    lookupField_append,
    h2,
    h1]
  cases c.ReversedAt <;> rfl

theorem marshal_lookup_paymentId (c : Chargeback) :
    lookupField c.marshalFields "paymentId" =
      if c.PaymentID = "" then none else some (Json.str c.PaymentID) := by
  have h8 := lookupField_single_ne "_links" (chargebackLinksObj c.Links) "paymentId" (by decide)
  have h6 := lookupField_timeField_ne "reversedAt" c.ReversedAt "paymentId" (by decide)
  have h5 := lookupField_timeField_ne "createdAt" c.CreatedAt "paymentId" (by decide)
  have h4 := lookupField_amountField_ne "settlementAmount" c.SettlementAmount "paymentId" (by decide)
  have h3 := lookupField_amountField_ne "amount" c.Amount "paymentId" (by decide)
  have h2 := lookupField_strField_ne "id" c.ID "paymentId" (by decide)
  have h1 := lookupField_strField_ne "resource" c.Resource "paymentId" (by decide)
  rw [Chargeback.marshalFields,
    lookupField_append,
    h8,
    lookupField_append,
    lookupField_strField_self,
    lookupField_append,
    h6,
    lookupField_append,
    h5,
    lookupField_append,
    h4,
    lookupField_append,
    h3,
    lookupField_append,
    h2,
    h1]
  by_cases h : c.PaymentID = "" <;> simp [h]

theorem marshal_lookup_links (c : Chargeback) :
    lookupField c.marshalFields "_links" = some (chargebackLinksObj c.Links) := by
  rw [Chargeback.marshalFields, lookupField_append, lookupField_single_self]

theorem unmarshalStringField_of_lookup (obj : List (String × Json)) (key w : String)
    (h : lookupField obj key = if w = "" then none else some (Json.str w)) :
    unmarshalStringField obj key = (w, none) := by
  by_cases hw : w = "" <;> simp [unmarshalStringField, h, hw]

theorem unmarshal_amountObj_roundtrip (a : Amount) :
    unmarshalAmountObj (strField "currency" a.Currency ++ strField "value" a.Value) = (a, none) := by
  have hc : lookupField (strField "currency" a.Currency ++ strField "value" a.Value) "currency" =
      if a.Currency = "" then none else some (Json.str a.Currency) := by
    rw [lookupField_append, lookupField_strField_ne "value" a.Value "currency" (by decide),
      lookupField_strField_self]
  have hv : lookupField (strField "currency" a.Currency ++ strField "value" a.Value) "value" =
      if a.Value = "" then none else some (Json.str a.Value) := by
    rw [lookupField_append, lookupField_strField_self,
      lookupField_strField_ne "currency" a.Currency "value" (by decide)]
    by_cases h : a.Value = "" <;> simp [h]
  have h1 := unmarshalStringField_of_lookup _ "currency" a.Currency hc
  have h2 := unmarshalStringField_of_lookup _ "value" a.Value hv
  simp only [unmarshalAmountObj, h1, h2]
  rfl

theorem unmarshal_urlObj_roundtrip (u : URL) :
    unmarshalURLObj (strField "href" u.Href ++ strField "type" u.Type_) = (u, none) := by
  have hh : lookupField (strField "href" u.Href ++ strField "type" u.Type_) "href" =
      if u.Href = "" then none else some (Json.str u.Href) := by
    rw [lookupField_append, lookupField_strField_ne "type" u.Type_ "href" (by decide),
      lookupField_strField_self]
  have ht : lookupField (strField "href" u.Href ++ strField "type" u.Type_) "type" =
      if u.Type_ = "" then none else some (Json.str u.Type_) := by
    rw [lookupField_append, lookupField_strField_self,
      lookupField_strField_ne "href" u.Href "type" (by decide)]
    by_cases h : u.Type_ = "" <;> simp [h]
  have h1 := unmarshalStringField_of_lookup _ "href" u.Href hh
  have h2 := unmarshalStringField_of_lookup _ "type" u.Type_ ht
  simp only [unmarshalURLObj, h1, h2]
  rfl

theorem unmarshalAmountPtr_of_lookup (obj : List (String × Json)) (key : String)
    (x : Option Amount) (h : lookupField obj key = x.map amountObj) :
    unmarshalAmountPtr obj key = (x, none) := by
  cases x with
  | none => simp [unmarshalAmountPtr, h]
  | some a => simp [unmarshalAmountPtr, h, amountObj, unmarshal_amountObj_roundtrip]

theorem unmarshalTimePtr_of_lookup (obj : List (String × Json)) (key : String)
    (x : Option GoTime) (h : lookupField obj key = x.map fun t => Json.str t.rfc3339) :
    unmarshalTimePtr obj key = (x, none) := by
  cases x with
  | none => simp [unmarshalTimePtr, h]
  | some t => simp [unmarshalTimePtr, h]

theorem unmarshalURLPtr_of_lookup (obj : List (String × Json)) (key : String)
    (x : Option URL) (h : lookupField obj key = x.map urlObj) :
    unmarshalURLPtr obj key = (x, none) := by
  cases x with
  | none => simp [unmarshalURLPtr, h]
  | some u => simp [unmarshalURLPtr, h, urlObj, unmarshal_urlObj_roundtrip]

theorem unmarshal_chargebackLinksObj_roundtrip (l : ChargebackLinks) :
    unmarshalChargebackLinksObj
      (urlField "self" l.Self ++ urlField "payment" l.Payment ++
        urlField "settlement" l.Settlement ++ urlField "documentation" l.Documentation) =
      (l, none) := by
  have hs : lookupField (urlField "self" l.Self ++ urlField "payment" l.Payment ++
      urlField "settlement" l.Settlement ++ urlField "documentation" l.Documentation) "self" =
      l.Self.map urlObj := by
    rw [lookupField_append, lookupField_urlField_ne "documentation" l.Documentation "self" (by decide),
      lookupField_append, lookupField_urlField_ne "settlement" l.Settlement "self" (by decide),
      lookupField_append, lookupField_urlField_ne "payment" l.Payment "self" (by decide),
      lookupField_urlField_self]
  have hp : lookupField (urlField "self" l.Self ++ urlField "payment" l.Payment ++
      urlField "settlement" l.Settlement ++ urlField "documentation" l.Documentation) "payment" =
      l.Payment.map urlObj := by
    rw [lookupField_append, lookupField_urlField_ne "documentation" l.Documentation "payment" (by decide),
      lookupField_append, lookupField_urlField_ne "settlement" l.Settlement "payment" (by decide),
      lookupField_append, lookupField_urlField_self,
      lookupField_urlField_ne "self" l.Self "payment" (by decide)]
    cases l.Payment <;> rfl
  have hst : lookupField (urlField "self" l.Self ++ urlField "payment" l.Payment ++
      urlField "settlement" l.Settlement ++ urlField "documentation" l.Documentation) "settlement" =
      l.Settlement.map urlObj := by
    rw [lookupField_append, lookupField_urlField_ne "documentation" l.Documentation "settlement" (by decide),
      lookupField_append, lookupField_urlField_self,
      lookupField_append, lookupField_urlField_ne "payment" l.Payment "settlement" (by decide),
      lookupField_urlField_ne "self" l.Self "settlement" (by decide)]
    cases l.Settlement <;> rfl
  have hd : lookupField (urlField "self" l.Self ++ urlField "payment" l.Payment ++
      urlField "settlement" l.Settlement ++ urlField "documentation" l.Documentation) "documentation" =
      l.Documentation.map urlObj := by
    rw [lookupField_append, lookupField_urlField_self,
      lookupField_append, lookupField_urlField_ne "settlement" l.Settlement "documentation" (by decide),
      lookupField_append, lookupField_urlField_ne "payment" l.Payment "documentation" (by decide),
      lookupField_urlField_ne "self" l.Self "documentation" (by decide)]
    cases l.Documentation <;> rfl
  have h1 := unmarshalURLPtr_of_lookup _ "self" l.Self hs
  have h2 := unmarshalURLPtr_of_lookup _ "payment" l.Payment hp
  have h3 := unmarshalURLPtr_of_lookup _ "settlement" l.Settlement hst
  have h4 := unmarshalURLPtr_of_lookup _ "documentation" l.Documentation hd
  simp only [unmarshalChargebackLinksObj, h1, h2, h3, h4]
  rfl

theorem unmarshalChargebackLinksField_of_lookup (obj : List (String × Json))
    (l : ChargebackLinks) (h : lookupField obj "_links" = some (chargebackLinksObj l)) :
    unmarshalChargebackLinksField obj = (l, none) := by
  have hr := unmarshal_chargebackLinksObj_roundtrip l
  simp only [List.append_assoc] at hr
  simp [unmarshalChargebackLinksField, h, chargebackLinksObj, hr]

theorem unmarshal_marshal_chargeback (c : Chargeback) :
    unmarshalChargeback c.marshalJSON = (c, none) := by
  have h1 := unmarshalStringField_of_lookup c.marshalFields "resource" c.Resource
    (marshal_lookup_resource c)
  have h2 := unmarshalStringField_of_lookup c.marshalFields "id" c.ID (marshal_lookup_id c)
  have h3 := unmarshalAmountPtr_of_lookup c.marshalFields "amount" c.Amount
    (marshal_lookup_amount c)
  have h4 := unmarshalAmountPtr_of_lookup c.marshalFields "settlementAmount" c.SettlementAmount
    (marshal_lookup_settlementAmount c)
  have h5 := unmarshalTimePtr_of_lookup c.marshalFields "createdAt" c.CreatedAt
    (marshal_lookup_createdAt c)
  have h6 := unmarshalTimePtr_of_lookup c.marshalFields "reversedAt" c.ReversedAt
    (marshal_lookup_reversedAt c)
  have h7 := unmarshalStringField_of_lookup c.marshalFields "paymentId" c.PaymentID
    (marshal_lookup_paymentId c)
  have h8 := unmarshalChargebackLinksField_of_lookup c.marshalFields c.Links
    (marshal_lookup_links c)
  show unmarshalChargebackObj c.marshalFields = (c, none)
  simp only [unmarshalChargebackObj, h1, h2, h3, h4, h5, h6, h7, h8]
  rfl

/-- C6: encoding a `Chargeback` to JSON and decoding it back yields the
original value with no error (so fields absent before the trip are absent
after it), and every nil-pointer or empty-string field is omitted from the
encoded object. -/
theorem chargeback_json_roundtrip (c : Chargeback) :
    unmarshalChargeback c.marshalJSON = (c, none) ∧
    (c.Resource = "" → lookupField c.marshalFields "resource" = none) ∧
    (c.ID = "" → lookupField c.marshalFields "id" = none) ∧
    (c.Amount = none → lookupField c.marshalFields "amount" = none) ∧
    (c.SettlementAmount = none → lookupField c.marshalFields "settlementAmount" = none) ∧
    (c.CreatedAt = none → lookupField c.marshalFields "createdAt" = none) ∧
    (c.ReversedAt = none → lookupField c.marshalFields "reversedAt" = none) ∧
    (c.PaymentID = "" → lookupField c.marshalFields "paymentId" = none) := by
  refine ⟨unmarshal_marshal_chargeback c, ?_, ?_, ?_, ?_, ?_, ?_, ?_⟩ <;> intro h <;>
    simp [marshal_lookup_resource, marshal_lookup_id, marshal_lookup_amount,
      marshal_lookup_settlementAmount, marshal_lookup_createdAt, marshal_lookup_reversedAt,
      marshal_lookup_paymentId, h]

/-- C6, witness: the round trip and every omission clause evaluated at the
zero chargeback, whose optional fields are all absent. -/
theorem chargeback_json_roundtrip_witness :
    unmarshalChargeback (Chargeback.marshalJSON {}) = ({}, none) ∧
    lookupField (Chargeback.marshalFields {}) "resource" = none ∧
    lookupField (Chargeback.marshalFields {}) "id" = none ∧
    lookupField (Chargeback.marshalFields {}) "amount" = none ∧
    lookupField (Chargeback.marshalFields {}) "settlementAmount" = none ∧
    lookupField (Chargeback.marshalFields {}) "createdAt" = none ∧
    lookupField (Chargeback.marshalFields {}) "reversedAt" = none ∧
    lookupField (Chargeback.marshalFields {}) "paymentId" = none :=
  ⟨(chargeback_json_roundtrip {}).1,
   (chargeback_json_roundtrip {}).2.1 rfl,
   (chargeback_json_roundtrip {}).2.2.1 rfl,
   (chargeback_json_roundtrip {}).2.2.2.1 rfl,
   (chargeback_json_roundtrip {}).2.2.2.2.1 rfl,
   (chargeback_json_roundtrip {}).2.2.2.2.2.1 rfl,
   (chargeback_json_roundtrip {}).2.2.2.2.2.2.1 rfl,
   (chargeback_json_roundtrip {}).2.2.2.2.2.2.2 rfl⟩
